import Mathlib

/-!
Shallow embedding of the automaprint print-dispatch and remote-exposure
subsystem (src/automaprint/printer.py, server.py, tunnel.py), together with
theorems settling the frozen claims about it.

Conventions of the embedding:
* byte strings are `List Nat` (one entry per byte);
* Python `None` / falsy defaults become `Option`;
* the outcome of external subprocess calls (SumatraPDF, cloudflared, psutil)
  is an explicit environment value passed to the embedded function;
* Python exceptions at a call site become `Except` results of that call in the
  environment; a `try/except` in the source becomes a `match` on that result.
-/

namespace AutomaPrint

/-- Byte strings: one `Nat` per byte. -/
abbrev Bytes := List Nat

/-! ## printer.py -/

/-- The 4-byte PDF signature `b"%PDF"` = 0x25 0x50 0x44 0x46. -/
def pdfSignature : Bytes := [37, 80, 68, 70]

/-- `printer.is_pdf`: `len(data) >= 4 and data[:4] == b"%PDF"`. -/
def is_pdf (data : Bytes) : Bool :=
  decide (data.length ≥ 4) && decide (data.take 4 = pdfSignature)

/-- The `settings` list accumulated by `printer.build_print_settings`:
scaling appends "noscale"/"shrink" (nothing for "fit"), color appends
"monochrome" (nothing for "color"), duplex appends "duplex" for
"duplexlong" and "duplexshort" for "duplexshort" (nothing for "simplex"). -/
def settings_list (scaling color duplex : String) : List String :=
  (if scaling = "noscale" then ["noscale"]
   else if scaling = "shrink" then ["shrink"]
   else [])
  ++ (if color = "monochrome" then ["monochrome"] else [])
  ++ (if duplex = "duplexlong" then ["duplex"]
      else if duplex = "duplexshort" then ["duplexshort"]
      else [])

/-- `printer.build_print_settings`: joins the settings with "," or returns
`None` when the list is empty. -/
def build_print_settings (scaling color duplex : String) : Option String :=
  if settings_list scaling color duplex = [] then none
  else some (String.intercalate "," (settings_list scaling color duplex))

/-- The renderer command line built in `printer.print_pdf` (lines 147-150):
`[sumatra, "-print-to", printer_name] (++ ["-print-settings", s])? ++
["-silent", temp_pdf_path]`. -/
def build_cmd (sumatra printer_name : String) (settings_str : Option String)
    (temp_pdf_path : String) : List String :=
  [sumatra, "-print-to", printer_name]
  ++ (match settings_str with
      | some s => ["-print-settings", s]
      | none => [])
  ++ ["-silent", temp_pdf_path]

/-- Configuration fields that the core reads (`config.DEFAULT_CONFIG` keys
used by server.py / printer.py). -/
structure Config where
  printer_name : String
  port : Nat
  use_tunnel : Bool
  api_key : String
  print_scaling : String
  print_color : String
  print_duplex : String
deriving DecidableEq, Repr

/-- Outcome of the `subprocess.run` call on the renderer:
it returned with an exit code and stderr text, it hit the 60s timeout
(`subprocess.TimeoutExpired`), or launching (or the temp-file write)
raised some other exception. -/
inductive RenderResult where
  | exited (returncode : Int) (stderrText : String)
  | timeoutExpired
  | launchError (msg : String)
deriving DecidableEq, Repr

/-- Environment of one `printer.print_pdf` call: the result of
`get_sumatra_path()` (None when the renderer executable is unresolved)
and the outcome of the renderer subprocess. -/
structure PrintEnv where
  sumatraPath : Option String
  renderResult : RenderResult
deriving DecidableEq, Repr

/-- `printer.print_pdf`: returns its boolean result together with the log
lines it emits. `print_settings` is the config dict passed by the server
(`None` models an empty/absent dict, which is falsy in Python). -/
def print_pdf (pdf_data : Bytes) (printer_name : String)
    (print_settings : Option Config) (env : PrintEnv) : Bool × List String :=
  match env.sumatraPath with
  | none =>
      (false, ["[!] SumatraPDF not found! Please place SumatraPDF.exe in the app folder."])
  | some _ =>
      let settings_str : Option String :=
        match print_settings with
        | some ps => build_print_settings ps.print_scaling ps.print_color ps.print_duplex
        | none => none
      let headerLogs : List String :=
        ["[PDF] Printer: " ++ printer_name]
        ++ (match settings_str with
            | some s => ["[PDF] Settings: " ++ s]
            | none => [])
      match env.renderResult with
      | .exited code stderrText =>
          if code = 0 then
            (true, headerLogs ++ ["[OK] Print job sent successfully"])
          else
            (false, headerLogs ++ ["[!] Print failed: " ++ stderrText])
      | .timeoutExpired =>
          (true, headerLogs ++ ["[OK] Print job sent (process timeout)"])
      | .launchError msg =>
          (false, headerLogs ++ ["[!] Print error: " ++ msg])

/-! ## server.py: the /health and /print endpoints -/

/-- One HTTP request as the two endpoints see it: method, the
`X-API-Key` header (None when absent), the `printer` query parameter
(None when absent), the multipart field named `file` (None when absent),
and the raw request body. -/
structure HttpRequest where
  reqMethod : String
  header_api_key : Option String
  query_printer : Option String
  files_file : Option Bytes
  raw_body : Bytes
deriving DecidableEq, Repr

/-- `server.check_api_key`: no auth when `use_tunnel` is falsy or the
configured key is empty; otherwise the `X-API-Key` header (empty string
when absent) must equal the configured key. -/
def check_api_key (config : Config) (req : HttpRequest) : Bool :=
  if !config.use_tunnel then true
  else if config.api_key = "" then true
  else (req.header_api_key.getD "") = config.api_key

/-- Body of a /health response. -/
inductive HealthBody where
  | empty
  | ok (status : String) (printerName : String) (port : Nat)
  | err (error : String)
deriving DecidableEq, Repr

/-- A /health response: HTTP status code and JSON body. -/
structure HealthResponse where
  status : Nat
  body : HealthBody
deriving DecidableEq, Repr

/-- `server.health` endpoint (GET/OPTIONS /health). -/
def health (config : Config) (req : HttpRequest) : HealthResponse :=
  if req.reqMethod = "OPTIONS" then ⟨204, .empty⟩
  else if !check_api_key config req then
    ⟨401, .err "Unauthorized: Invalid API key"⟩
  else
    ⟨200, .ok "ok" config.printer_name config.port⟩

/-- Printer selection in `print_pdf_endpoint`:
`request.args.get("printer", config.get("printer_name", ""))`. -/
def selectPrinter (config : Config) (req : HttpRequest) : String :=
  match req.query_printer with
  | some p => p
  | none => config.printer_name

/-- Payload selection in `print_pdf_endpoint`: the multipart `file` field
when present, otherwise the raw request body. -/
def selectPayload (req : HttpRequest) : Bytes :=
  match req.files_file with
  | some d => d
  | none => req.raw_body

/-- Body of a /print response. -/
inductive PrintBody where
  | empty
  | success (message : String) (printerName : String) (bytes : Nat)
  | err (error : String)
deriving DecidableEq, Repr

/-- A /print response: HTTP status code, JSON body, and whether the
dispatcher `printer.print_pdf` was invoked while producing it. -/
structure PrintResponse where
  status : Nat
  body : PrintBody
  dispatched : Bool
deriving DecidableEq, Repr

/-- `server.print_pdf_endpoint` (POST/OPTIONS /print). -/
def print_pdf_endpoint (config : Config) (req : HttpRequest) (env : PrintEnv) :
    PrintResponse :=
  if req.reqMethod = "OPTIONS" then ⟨204, .empty, false⟩
  else if !check_api_key config req then
    ⟨401, .err "Unauthorized: Invalid API key", false⟩
  else
    let printerName := selectPrinter config req
    if printerName = "" then ⟨400, .err "No printer specified", false⟩
    else
      let pdf_data := selectPayload req
      if pdf_data = [] then ⟨400, .err "No PDF data received", false⟩
      else if !is_pdf pdf_data then
        ⟨400, .err "Data is not a valid PDF file", false⟩
      else
        if (print_pdf pdf_data printerName (some config) env).1 then
          ⟨200, .success "Print job sent successfully" printerName pdf_data.length, true⟩
        else
          ⟨500, .err "Print job failed", true⟩

/-! ## tunnel.py: TunnelManager -/

/-- Mutable state of a `TunnelManager`: the subprocess handle
(`self.process`, modelled by an opaque pid), `self.tunnel_url`, and
`self.running`. -/
structure TunnelState where
  process : Option Nat
  tunnel_url : Option String
  running : Bool
deriving DecidableEq, Repr

/-- A character of the `[a-z0-9-]` class in the tunnel URL pattern. -/
def isLabelChar (c : Char) : Bool :=
  ('a' ≤ c && c ≤ 'z') || ('0' ≤ c && c ≤ '9') || c = '-'

/-- Try to match `https://[a-z0-9-]+\.trycloudflare\.com` at the start of
`cs`, returning the matched characters. Since `.` is not a label
character, the greedy label run is the only candidate, so this is the
regex's semantics at this position. -/
def matchUrlAt (cs : List Char) : Option (List Char) :=
  if cs.take 8 = "https://".toList then
    let rest := cs.drop 8
    let label := rest.takeWhile isLabelChar
    let after := rest.dropWhile isLabelChar
    if label ≠ [] && after.take 18 = ".trycloudflare.com".toList then
      some ("https://".toList ++ label ++ ".trycloudflare.com".toList)
    else none
  else none

/-- Leftmost match of the tunnel URL pattern in a character list
(`re.search` semantics). -/
def searchUrl : List Char → Option (List Char)
  | [] => none
  | c :: cs =>
    match matchUrlAt (c :: cs) with
    | some m => some m
    | none => searchUrl cs

/-- `url_pattern.search(line)` followed by `.group(0)` in
`TunnelManager._capture_output`. -/
def findTunnelUrl (line : String) : Option String :=
  (searchUrl line.toList).map (fun cs => String.mk cs)

/-- Python `str.strip()` on the character list: drop whitespace from both
ends. -/
def stripChars (cs : List Char) : List Char :=
  ((cs.dropWhile Char.isWhitespace).reverse.dropWhile Char.isWhitespace).reverse

/-- Python `line.strip()`. -/
def pyStrip (s : String) : String :=
  String.mk (stripChars s.toList)

/-- One iteration of the `for line in self.process.stdout` loop of
`TunnelManager._capture_output`: strip the line, skip it when empty,
record the first URL match when `tunnel_url` is still unset. -/
def capture_line (st : TunnelState) (rawLine : String) : TunnelState :=
  let line := pyStrip rawLine
  if line = "" then st
  else
    match findTunnelUrl line with
    | some url =>
        if st.tunnel_url = none then { st with tunnel_url := some url } else st
    | none => st

/-- `TunnelManager._capture_output` run to completion on the whole output
stream `lines`: fold the loop body over the lines, then (stream closed,
or the read raised and was swallowed) set `running = False` and
`tunnel_url = None`. -/
def capture_output (st : TunnelState) (lines : List String) : TunnelState :=
  let st1 := lines.foldl capture_line st
  { st1 with running := false, tunnel_url := none }

/-- `TunnelManager.get_url`. -/
def tunnel_get_url (st : TunnelState) : Option String :=
  st.tunnel_url

/-- Termination actions taken by `TunnelManager.stop` on the subprocess. -/
inductive StopAction where
  | terminateProc
  | killProc
deriving DecidableEq, Repr

/-- `TunnelManager.stop`: a no-op when `self.process` is falsy; otherwise
terminate, wait up to 5 s, kill when the graceful path raised
(`gracefulFailed`, e.g. `wait` hit its timeout), then clear `process`
and `tunnel_url` and set `running = False`. Returns the new state and
the subprocess actions performed. -/
def tunnel_stop (st : TunnelState) (gracefulFailed : Bool) :
    TunnelState × List StopAction :=
  match st.process with
  | none => (st, [])
  | some _ =>
      let acts :=
        if gracefulFailed then [StopAction.terminateProc, StopAction.killProc]
        else [StopAction.terminateProc]
      (⟨none, none, false⟩, acts)

/-- Environment of one `TunnelManager.start` call: the result of
`get_cloudflared_path()`, the result of `download_cloudflared()` (used
only when the former is None), and the outcome of `subprocess.Popen`
(ok with a pid, or an exception message). -/
structure StartEnv where
  cloudflaredPath : Option String
  downloadResult : Option String
  spawnResult : Except String Nat
deriving Repr

/-- `TunnelManager.start`: returns `(returnValue, newState, spawned)`,
where `spawned` records whether a subprocess was launched. Returns
`False` without spawning when already running; resolves the executable
(falling back to download); returns `False` when unresolved or when the
spawn raises; on success stores the process handle, sets `running`, and
returns `True`. -/
def tunnel_start (st : TunnelState) (env : StartEnv) (local_port : Nat) :
    Bool × TunnelState × Bool :=
  if st.running then (false, st, false)
  else
    let cloudflared :=
      match env.cloudflaredPath with
      | some p => some p
      | none => env.downloadResult
    match cloudflared with
    | none => (false, st, false)
    | some _ =>
        match env.spawnResult with
        | .error _ => (false, st, false)
        | .ok pid => (true, { st with process := some pid, running := true }, true)

/-! ## server.py: kill_process_on_port (Port Guard) -/

/-- The exceptions psutil's resolve/terminate/kill calls raise, i.e. the
ones named by the inner `except` clause of `kill_process_on_port`. -/
inductive KillErr where
  | noSuchProcess
  | accessDenied
deriving DecidableEq, Repr

/-- One entry of `psutil.net_connections()`: local port, connection
status, owning pid. -/
structure Conn where
  laddr_port : Nat
  connStatus : String
  pid : Nat
deriving DecidableEq, Repr

/-- Behaviour of the psutil process operations for each pid. -/
structure KillEnv where
  resolve : Nat → Except KillErr Unit
  terminate : Nat → Except KillErr Unit
  stillRunning : Nat → Bool
  kill : Nat → Except KillErr Unit

/-- Events recording what the port guard did to one pid. -/
inductive GuardEvent where
  | resolveFailed (pid : Nat) (e : KillErr)
  | terminateFailed (pid : Nat) (e : KillErr)
  | terminated (pid : Nat)
  | killFailed (pid : Nat) (e : KillErr)
  | killed (pid : Nat)
  | outerError (msg : String)
deriving DecidableEq, Repr

/-- The pid a per-process guard event is about. -/
def GuardEvent.eventPid : GuardEvent → Option Nat
  | .resolveFailed pid _ => some pid
  | .terminateFailed pid _ => some pid
  | .terminated pid => some pid
  | .killFailed pid _ => some pid
  | .killed pid => some pid
  | .outerError _ => none

/-- Body of the inner `try` of `kill_process_on_port` for one matching
connection: resolve the process, terminate it, wait, kill when still
running. The inner `except (NoSuchProcess, AccessDenied)` swallows every
error these steps raise, so the result is total. -/
def kill_one (env : KillEnv) (pid : Nat) : List GuardEvent :=
  match env.resolve pid with
  | .error e => [.resolveFailed pid e]
  | .ok _ =>
      match env.terminate pid with
      | .error e => [.terminateFailed pid e]
      | .ok _ =>
          if env.stillRunning pid then
            match env.kill pid with
            | .error e => [.terminated pid, .killFailed pid e]
            | .ok _ => [.terminated pid, .killed pid]
          else [.terminated pid]

/-- Whether a connection matches the guard's filter: listening on the
target port (`psutil.CONN_LISTEN` is the string "LISTEN"). -/
def connMatches (port : Nat) (c : Conn) : Bool :=
  c.laddr_port = port && c.connStatus = "LISTEN"

/-- `server.kill_process_on_port`: `enumResult` is the outcome of
`psutil.net_connections()` (which may itself raise). The outer
`except Exception` converts any enumeration failure into a log entry, so
the guard always returns `.ok` — the `Except` in the result type records
that no exception escapes to the caller. -/
def kill_process_on_port (env : KillEnv)
    (enumResult : Except String (List Conn)) (port : Nat) :
    Except String (List GuardEvent) :=
  match enumResult with
  | .error msg => .ok [.outerError msg]
  | .ok conns =>
      .ok ((conns.filter (connMatches port)).flatMap (fun c => kill_one env c.pid))

/-! ## Derived notions and concrete instances used by the theorems -/

/-- The first URL match produced by the reader across a whole stream:
first result of `findTunnelUrl` on the stripped lines. -/
def firstUrl (lines : List String) : Option String :=
  (lines.filterMap (fun l => findTunnelUrl (pyStrip l))).head?

/-- A local-only configuration with a configured printer (tunnel off). -/
def exampleConfig : Config :=
  ⟨"Nonexistent Printer", 8080, false, "", "shrink", "color", "simplex"⟩

/-- The bytes of `b"%PDF-1.4"`. -/
def examplePdfBytes : Bytes := [37, 80, 68, 70, 45, 49, 46, 52]

/-- A raw-body POST /print request carrying a valid PDF payload. -/
def exampleRequest : HttpRequest := ⟨"POST", none, none, none, examplePdfBytes⟩

/-- A raw-body POST /print request carrying the 1-byte payload `b"x"`. -/
def nonPdfRequest : HttpRequest := ⟨"POST", none, none, none, [120]⟩

/-- Renderer resolved; the subprocess exits 1 with stderr "printer not
found". -/
def failingRenderEnv : PrintEnv :=
  ⟨some "SumatraPDF.exe", .exited 1 "printer not found"⟩

/-- Renderer resolved; the subprocess exits 0. -/
def okRenderEnv : PrintEnv := ⟨some "SumatraPDF.exe", .exited 0 ""⟩

/-- A tunnel session whose reader has already finished (stream closed):
`running` is false but the process handle is still set. -/
def staleTunnelState : TunnelState := ⟨some 1, none, false⟩

/-- psutil behaviour where pid 1 denies access and every other pid
terminates cleanly without needing a kill. -/
def exampleKillEnv : KillEnv :=
  ⟨fun _ => .ok (),
   fun pid => if pid = 1 then .error .accessDenied else .ok (),
   fun _ => false,
   fun _ => .ok ()⟩

/-- Three connections: two listeners on port 8080 (pids 1 and 2) and one
listener on another port. -/
def exampleConns : List Conn := [⟨8080, "LISTEN", 1⟩, ⟨8080, "LISTEN", 2⟩, ⟨22, "LISTEN", 3⟩]

/-- Start environment where the executable is unresolved and download
fails. -/
def unresolvedStartEnv : StartEnv := ⟨none, none, .error "no exe"⟩

/-- Start environment where the executable resolves but `Popen` raises. -/
def spawnFailStartEnv : StartEnv := ⟨some "cloudflared.exe", none, .error "spawn failed"⟩

/-! ## Helper lemmas about the tunnel output reader -/

theorem capture_line_url_some (st : TunnelState) (l u : String)
    (h : st.tunnel_url = some u) : (capture_line st l).tunnel_url = some u := by
  simp only [capture_line]
  split
  · exact h
  · split
    · split
      · simp_all
      · exact h
    · exact h

theorem capture_line_url_none (st : TunnelState) (l : String)
    (h : st.tunnel_url = none) :
    (capture_line st l).tunnel_url = findTunnelUrl (pyStrip l) := by
  simp only [capture_line]
  split
  · rename_i hempty
    rw [h, hempty]
    rfl
  · split <;> simp_all

theorem capture_line_keeps_process (st : TunnelState) (l : String) :
    (capture_line st l).process = st.process ∧
    (capture_line st l).running = st.running := by
  simp only [capture_line]
  split
  · exact ⟨rfl, rfl⟩
  · split
    · split <;> exact ⟨rfl, rfl⟩
    · exact ⟨rfl, rfl⟩

theorem foldl_capture_some (lines : List String) :
    ∀ (st : TunnelState) (u : String), st.tunnel_url = some u →
      (List.foldl capture_line st lines).tunnel_url = some u := by
  induction lines with
  | nil => intro st u h; exact h
  | cons l ls ih =>
      intro st u h
      simp only [List.foldl_cons]
      exact ih _ u (capture_line_url_some st l u h)

theorem foldl_capture_none (lines : List String) :
    ∀ st : TunnelState, st.tunnel_url = none →
      (List.foldl capture_line st lines).tunnel_url = firstUrl lines := by
  induction lines with
  | nil => intro st h; exact h
  | cons l ls ih =>
      intro st h
      simp only [List.foldl_cons]
      cases hf : findTunnelUrl (pyStrip l) with
      | none =>
          have h1 : (capture_line st l).tunnel_url = none := by
            rw [capture_line_url_none st l h, hf]
          rw [ih _ h1]
          simp [firstUrl, List.filterMap_cons, hf]
      | some u =>
          have h1 : (capture_line st l).tunnel_url = some u := by
            rw [capture_line_url_none st l h, hf]
          rw [foldl_capture_some ls _ u h1]
          simp [firstUrl, List.filterMap_cons, hf]

theorem is_pdf_ne_nil (d : Bytes) (h : is_pdf d = true) : d ≠ [] := by
  intro hnil
  subst hnil
  exact absurd h (by decide)

theorem kill_one_has_event (env : KillEnv) (pid : Nat) :
    ∃ e ∈ kill_one env pid, e.eventPid = some pid := by
  simp only [kill_one]
  split
  · exact ⟨_, List.mem_singleton.mpr rfl, rfl⟩
  · split
    · exact ⟨_, List.mem_singleton.mpr rfl, rfl⟩
    · split
      · split <;> exact ⟨.terminated pid, by simp, rfl⟩
      · exact ⟨_, List.mem_singleton.mpr rfl, rfl⟩

/-! ## Claims -/

/-- C1: for every POST /print request whose API-key check passes, an empty
selected printer name yields status 400; an empty payload yields status
400; and a payload that fails the PDF-signature check yields status 400
with the dispatcher never invoked. -/
theorem c1_print_validation (config : Config) (req : HttpRequest) (env : PrintEnv)
    (hm : req.reqMethod = "POST")
    (hauth : check_api_key config req = true) :
    (selectPrinter config req = "" → (print_pdf_endpoint config req env).status = 400)
    ∧ (selectPayload req = [] → (print_pdf_endpoint config req env).status = 400)
    ∧ (is_pdf (selectPayload req) = false →
        (print_pdf_endpoint config req env).status = 400
        ∧ (print_pdf_endpoint config req env).dispatched = false) := by
  refine ⟨fun hp => ?_, fun hd => ?_, fun hnp => ?_⟩
  · simp [print_pdf_endpoint, hm, hauth, hp]
  · by_cases hp : selectPrinter config req = ""
    · simp [print_pdf_endpoint, hm, hauth, hp]
    · simp [print_pdf_endpoint, hm, hauth, hp, hd]
  · by_cases hp : selectPrinter config req = ""
    · simp [print_pdf_endpoint, hm, hauth, hp]
    · by_cases hd : selectPayload req = []
      · simp [print_pdf_endpoint, hm, hauth, hp, hd]
      · simp [print_pdf_endpoint, hm, hauth, hp, hd, hnp]

/-- C1 witness: a 1-byte non-PDF payload `b"x"` with auth passing yields a
400 response and no dispatch. -/
theorem c1_witness :
    (print_pdf_endpoint exampleConfig nonPdfRequest failingRenderEnv).status = 400
    ∧ (print_pdf_endpoint exampleConfig nonPdfRequest failingRenderEnv).dispatched = false :=
  (c1_print_validation exampleConfig nonPdfRequest failingRenderEnv rfl (by decide)).2.2
    (by decide)

/-- C2: on GET /health, when `use_tunnel` is off or no API key is
configured every request gets 200 with the status/printer/port body;
when the tunnel is on and a key is configured, a matching `X-API-Key`
header gets 200 and a differing or absent header gets 401 with the
error body. -/
theorem c2_health_auth (config : Config) (req : HttpRequest)
    (hm : req.reqMethod = "GET") :
    ((config.use_tunnel = false ∨ config.api_key = "") →
        health config req = ⟨200, .ok "ok" config.printer_name config.port⟩)
    ∧ (config.use_tunnel = true → config.api_key ≠ "" →
        ((req.header_api_key = some config.api_key →
            health config req = ⟨200, .ok "ok" config.printer_name config.port⟩)
         ∧ (∀ k, req.header_api_key = some k → k ≠ config.api_key →
            health config req = ⟨401, .err "Unauthorized: Invalid API key"⟩)
         ∧ (req.header_api_key = none →
            health config req = ⟨401, .err "Unauthorized: Invalid API key"⟩))) := by
  constructor
  · intro h
    rcases h with h | h <;> simp [health, check_api_key, hm, h]
  · intro ht hk
    refine ⟨fun hh => ?_, fun k hh hne => ?_, fun hh => ?_⟩
    · simp [health, check_api_key, hm, ht, hk, hh]
    · simp [health, check_api_key, hm, ht, hk, hh, hne]
    · simp [health, check_api_key, hm, ht, hk, hh]
      intro habs
      exact absurd habs.symm hk

/-- C2 witness: with the tunnel on and key "X", header "Y" gets 401 and
header "X" gets 200. -/
theorem c2_witness :
    health ⟨"P", 8080, true, "X", "shrink", "color", "simplex"⟩
      ⟨"GET", some "Y", none, none, []⟩ = ⟨401, .err "Unauthorized: Invalid API key"⟩ :=
  ((c2_health_auth ⟨"P", 8080, true, "X", "shrink", "color", "simplex"⟩
      ⟨"GET", some "Y", none, none, []⟩ rfl).2 rfl (by decide)).2.1
    "Y" rfl (by decide)

/-- C3: with the renderer executable resolved, a 60-second timeout of the
renderer subprocess makes `print_pdf` report success; a non-zero exit
makes it report failure and log the renderer's stderr text; a launch
exception makes it report failure; and on the endpoint a successful
dispatch yields 200 while a failed dispatch yields 500 with body
error "Print job failed". -/
theorem c3_dispatch_outcomes (pdf_data : Bytes) (printer_name : String)
    (config : Config) (env : PrintEnv) (p : String)
    (hs : env.sumatraPath = some p) :
    (env.renderResult = RenderResult.timeoutExpired →
        (print_pdf pdf_data printer_name (some config) env).1 = true)
    ∧ (∀ code txt, env.renderResult = RenderResult.exited code txt → code ≠ 0 →
        (print_pdf pdf_data printer_name (some config) env).1 = false
        ∧ ("[!] Print failed: " ++ txt) ∈ (print_pdf pdf_data printer_name (some config) env).2)
    ∧ (∀ msg, env.renderResult = RenderResult.launchError msg →
        (print_pdf pdf_data printer_name (some config) env).1 = false)
    ∧ (∀ req : HttpRequest, req.reqMethod = "POST" → check_api_key config req = true →
        selectPrinter config req ≠ "" → is_pdf (selectPayload req) = true →
        ((print_pdf (selectPayload req) (selectPrinter config req) (some config) env).1 = true →
            (print_pdf_endpoint config req env).status = 200)
        ∧ ((print_pdf (selectPayload req) (selectPrinter config req) (some config) env).1 = false →
            (print_pdf_endpoint config req env).status = 500
            ∧ (print_pdf_endpoint config req env).body = PrintBody.err "Print job failed")) := by
  refine ⟨fun hr => ?_, fun code txt hr hc => ?_, fun msg hr => ?_, fun req hm hauth hp hpdf => ?_⟩
  · simp [print_pdf, hs, hr]
  · constructor <;> simp [print_pdf, hs, hr, hc]
  · simp [print_pdf, hs, hr]
  · have hnn : selectPayload req ≠ [] := is_pdf_ne_nil _ hpdf
    constructor <;> intro hres <;>
      simp [print_pdf_endpoint, hm, hauth, hp, hpdf, hnn, hres]

/-- C3 witness: renderer exit code 1 with stderr "printer not found" on a
valid PDF makes the dispatch fail, the diagnostic is logged, and the
endpoint answers 500 with error "Print job failed". -/
theorem c3_witness :
    (print_pdf examplePdfBytes "Nonexistent Printer" (some exampleConfig) failingRenderEnv).1 = false
    ∧ ("[!] Print failed: " ++ "printer not found")
        ∈ (print_pdf examplePdfBytes "Nonexistent Printer" (some exampleConfig) failingRenderEnv).2 :=
  (c3_dispatch_outcomes examplePdfBytes "Nonexistent Printer" exampleConfig
      failingRenderEnv "SumatraPDF.exe" rfl).2.1 1 "printer not found" rfl (by decide)

/-- C4: the settings token: scaling emits "noscale"/"shrink" and nothing
for "fit"; color emits "monochrome" only when non-default; duplex emits
"duplex" for long edge and "duplexshort" for short edge and nothing for
simplex; the parts are comma-joined into one token, no `-print-settings`
flag appears in the renderer command when the list is empty, and the two
concrete option triples evaluate as the claim states. -/
theorem c4_build_print_settings :
    build_print_settings "fit" "color" "simplex" = none
    ∧ build_print_settings "noscale" "monochrome" "duplexlong" = some "noscale,monochrome,duplex"
    ∧ (∀ c d, "noscale" ∈ settings_list "noscale" c d
        ∧ "shrink" ∈ settings_list "shrink" c d
        ∧ "noscale" ∉ settings_list "fit" c d
        ∧ "shrink" ∉ settings_list "fit" c d)
    ∧ (∀ s d, "monochrome" ∈ settings_list s "monochrome" d
        ∧ "monochrome" ∉ settings_list s "color" d)
    ∧ (∀ s c, "duplex" ∈ settings_list s c "duplexlong"
        ∧ "duplexshort" ∈ settings_list s c "duplexshort"
        ∧ "duplex" ∉ settings_list s c "simplex"
        ∧ "duplexshort" ∉ settings_list s c "simplex")
    ∧ (∀ s c d, settings_list s c d = [] → build_print_settings s c d = none)
    ∧ (∀ s c d, settings_list s c d ≠ [] →
        build_print_settings s c d = some (String.intercalate "," (settings_list s c d)))
    ∧ (∀ sm pn tp, build_cmd sm pn none tp = [sm, "-print-to", pn, "-silent", tp])
    ∧ (∀ sm pn tok tp, build_cmd sm pn (some tok) tp
        = [sm, "-print-to", pn, "-print-settings", tok, "-silent", tp]) := by
  refine ⟨by decide, by decide, fun c d => ?_, fun s d => ?_, fun s c => ?_,
    fun s c d h => ?_, fun s c d h => ?_, fun sm pn tp => rfl, fun sm pn tok tp => rfl⟩
  · refine ⟨?_, ?_, ?_, ?_⟩ <;> (simp only [settings_list]; split_ifs <;> simp_all)
  · constructor <;> (simp only [settings_list]; split_ifs <;> simp_all)
  · refine ⟨?_, ?_, ?_, ?_⟩ <;> (simp only [settings_list]; split_ifs <;> simp_all)
  · simp [build_print_settings, h]
  · simp [build_print_settings, h]

/-- C4 witness: the all-default triple produces no settings token. -/
theorem c4_witness : build_print_settings "fit" "color" "simplex" = none :=
  c4_build_print_settings.1

/-- C5 counterexample: a valid PDF payload with a configured, non-empty
printer and a passing auth check still yields 500 (not 200) when the
renderer exits non-zero, so the claim as stated fails. -/
theorem c5_counterexample :
    is_pdf (selectPayload exampleRequest) = true
    ∧ selectPrinter exampleConfig exampleRequest ≠ ""
    ∧ check_api_key exampleConfig exampleRequest = true
    ∧ (print_pdf_endpoint exampleConfig exampleRequest failingRenderEnv).status = 500
    ∧ (print_pdf_endpoint exampleConfig exampleRequest failingRenderEnv).status ≠ 200 := by
  decide

/-- C5 amended: for every valid PDF payload and configured, non-empty
printer, provided the dispatch reports success (renderer resolved and it
exited 0 or timed out), POST /print returns 200 with success body whose
`bytes` equals the payload length. -/
theorem c5_print_success_bytes (config : Config) (req : HttpRequest) (env : PrintEnv)
    (hm : req.reqMethod = "POST")
    (hauth : check_api_key config req = true)
    (hp : selectPrinter config req ≠ "")
    (hpdf : is_pdf (selectPayload req) = true)
    (hok : (print_pdf (selectPayload req) (selectPrinter config req) (some config) env).1 = true) :
    print_pdf_endpoint config req env =
      ⟨200, .success "Print job sent successfully" (selectPrinter config req)
        (selectPayload req).length, true⟩ := by
  have hnn : selectPayload req ≠ [] := is_pdf_ne_nil _ hpdf
  simp [print_pdf_endpoint, hm, hauth, hp, hpdf, hnn, hok]

/-- C5 witness: the example PDF on the example printer with a renderer
exiting 0 yields the 200 success response with `bytes` = payload
length. -/
theorem c5_witness :
    print_pdf_endpoint exampleConfig exampleRequest okRenderEnv =
      ⟨200, .success "Print job sent successfully" (selectPrinter exampleConfig exampleRequest)
        (selectPayload exampleRequest).length, true⟩ :=
  c5_print_success_bytes exampleConfig exampleRequest okRenderEnv rfl (by decide)
    (by decide) (by decide) (by decide)

/-- C6: the output reader records as `tunnel_url` exactly the first
pattern match across the stream (later matches are ignored, and a state
that already holds a URL keeps it through any further lines); before any
match `get_url` returns none; and when the stream closes the session has
`running = false` and `tunnel_url` cleared. -/
theorem c6_capture_output (p : Option Nat) (r : Bool) (lines : List String)
    (st : TunnelState) :
    tunnel_get_url ⟨p, none, r⟩ = none
    ∧ (List.foldl capture_line ⟨p, none, r⟩ lines).tunnel_url = firstUrl lines
    ∧ ((∀ l ∈ lines, findTunnelUrl (pyStrip l) = none) →
        tunnel_get_url (List.foldl capture_line ⟨p, none, r⟩ lines) = none)
    ∧ (∀ u, st.tunnel_url = some u →
        (List.foldl capture_line st lines).tunnel_url = some u)
    ∧ (capture_output st lines).running = false
    ∧ (capture_output st lines).tunnel_url = none := by
  refine ⟨rfl, foldl_capture_none lines _ rfl, fun hnone => ?_, ?_, rfl, rfl⟩
  · have h1 : firstUrl lines = none := by
      simp only [firstUrl]
      rw [List.head?_eq_none_iff, List.filterMap_eq_nil_iff]
      exact hnone
    unfold tunnel_get_url
    rw [foldl_capture_none lines _ rfl, h1]
  · intro u hu
    exact foldl_capture_some lines st u hu

/-- C6 witness: on a stream with two URL lines, the reader keeps only the
first URL. -/
theorem c6_witness :
    (List.foldl capture_line ⟨none, none, true⟩
        ["x", " https://first-url.trycloudflare.com ", "https://second-url.trycloudflare.com"]).tunnel_url
      = firstUrl ["x", " https://first-url.trycloudflare.com ", "https://second-url.trycloudflare.com"] :=
  (c6_capture_output none true
    ["x", " https://first-url.trycloudflare.com ", "https://second-url.trycloudflare.com"]
    ⟨none, none, true⟩).2.1

/-- C7 counterexample: on the reachable session state where the reader has
finished (`running = false`) but the process handle is still set,
`stop()` is not a no-op: it clears the handle (and issues a terminate),
so the claim that a not-running session is left unchanged fails. -/
theorem c7_counterexample :
    staleTunnelState.running = false
    ∧ tunnel_stop staleTunnelState false ≠ (staleTunnelState, []) := by
  decide

/-- C7 amended: `stop()` is a no-op exactly when the process handle is
absent; whenever a process handle is present — even if `running` is
already false — it requests graceful termination, force-kills when the
graceful path fails (5 s wait timeout), and leaves the session with no
process handle, no `tunnel_url`, and `running = false`; a second `stop`
is then a no-op, so `stop` is idempotent. -/
theorem c7_stop_idempotent (st : TunnelState) (g g' : Bool) :
    (st.process = none → tunnel_stop st g = (st, []))
    ∧ (st.process ≠ none →
        (tunnel_stop st g).1 = ⟨none, none, false⟩
        ∧ StopAction.terminateProc ∈ (tunnel_stop st g).2
        ∧ (g = true → StopAction.killProc ∈ (tunnel_stop st g).2)
        ∧ (g = false → (tunnel_stop st g).2 = [StopAction.terminateProc]))
    ∧ tunnel_stop (tunnel_stop st g).1 g' = ((tunnel_stop st g).1, []) := by
  refine ⟨fun h => ?_, fun h => ?_, ?_⟩
  · simp [tunnel_stop, h]
  · match hp : st.process with
    | none => exact absurd hp h
    | some pid =>
        refine ⟨by simp [tunnel_stop, hp], by cases g <;> simp [tunnel_stop, hp],
          fun hg => by simp [tunnel_stop, hp, hg], fun hg => by simp [tunnel_stop, hp, hg]⟩
  · match hp : st.process with
    | none => simp [tunnel_stop, hp]
    | some pid => simp [tunnel_stop, hp]

/-- C7 witness: stopping a running session clears everything; stopping it
again is a no-op. -/
theorem c7_witness :
    tunnel_stop (tunnel_stop ⟨some 2, some "https://u.trycloudflare.com", true⟩ true).1 false
      = ((tunnel_stop ⟨some 2, some "https://u.trycloudflare.com", true⟩ true).1, []) :=
  (c7_stop_idempotent ⟨some 2, some "https://u.trycloudflare.com", true⟩ true false).2.2

/-- C8: the port guard is total and best-effort: for every psutil
behaviour and every enumeration outcome it returns `.ok` (no exception
propagates out of it), and when the enumeration succeeds every listening
connection on the target port gets its own guard event — an error on one
process is swallowed without aborting the remaining iterations. -/
theorem c8_port_guard (env : KillEnv) (enumResult : Except String (List Conn))
    (port : Nat) :
    (∃ evs, kill_process_on_port env enumResult port = Except.ok evs)
    ∧ (∀ conns, enumResult = Except.ok conns →
        ∀ c ∈ conns, connMatches port c = true →
          ∃ evs, kill_process_on_port env enumResult port = Except.ok evs
            ∧ ∃ e ∈ evs, e.eventPid = some c.pid) := by
  constructor
  · cases enumResult with
    | error msg => exact ⟨_, rfl⟩
    | ok conns => exact ⟨_, rfl⟩
  · intro conns hconns c hc hmatch
    subst hconns
    refine ⟨_, rfl, ?_⟩
    obtain ⟨e, he, hpid⟩ := kill_one_has_event env c.pid
    exact ⟨e, List.mem_flatMap.mpr ⟨c, List.mem_filter.mpr ⟨hc, hmatch⟩, he⟩, hpid⟩

/-- C8 witness: with pid 1 denying access and pid 2 terminating cleanly,
the guard still reaches the second listener on the port. -/
theorem c8_witness :
    ∃ evs, kill_process_on_port exampleKillEnv (Except.ok exampleConns) 8080 = Except.ok evs
      ∧ ∃ e ∈ evs, e.eventPid = some 2 :=
  (c8_port_guard exampleKillEnv (Except.ok exampleConns) 8080).2 exampleConns rfl
    ⟨8080, "LISTEN", 2⟩ (by decide) (by decide)

/-- C9: `start` on an already-running session returns failure without
spawning and without changing state; when the executable is unresolved
(path lookup and download both fail) it returns failure; and when the
spawn raises it returns failure with the state unchanged and nothing
spawned — in every failure case the caller just gets `false` back. -/
theorem c9_tunnel_start (st : TunnelState) (env : StartEnv) (local_port : Nat) :
    (st.running = true → tunnel_start st env local_port = (false, st, false))
    ∧ (env.cloudflaredPath = none → env.downloadResult = none →
        tunnel_start st env local_port = (false, st, false))
    ∧ (∀ msg, env.spawnResult = Except.error msg →
        tunnel_start st env local_port = (false, st, false)) := by
  refine ⟨fun hr => ?_, fun hc hd => ?_, fun msg hspawn => ?_⟩
  · simp [tunnel_start, hr]
  · by_cases hr : st.running
    · simp [tunnel_start, hr]
    · simp [tunnel_start, hr, hc, hd]
  · by_cases hr : st.running
    · simp [tunnel_start, hr]
    · cases hc : env.cloudflaredPath with
      | some p => simp [tunnel_start, hr, hc, hspawn]
      | none =>
          cases hd : env.downloadResult with
          | some p => simp [tunnel_start, hr, hc, hd, hspawn]
          | none => simp [tunnel_start, hr, hc, hd]

/-- C9 witness: a spawn failure on an idle session returns failure with
the state unchanged and no subprocess spawned. -/
theorem c9_witness :
    tunnel_start ⟨none, none, false⟩ spawnFailStartEnv 8080 =
      (false, ⟨none, none, false⟩, false) :=
  (c9_tunnel_start ⟨none, none, false⟩ spawnFailStartEnv 8080).2.2 "spawn failed" rfl

/-- C10: when a multipart field named `file` is present its content is the
payload used for validation and dispatch and the raw request body is
ignored (the response is independent of it); only when no `file` field
is present is the raw body the payload. -/
theorem c10_payload_selection (config : Config) (req : HttpRequest) (env : PrintEnv) :
    (∀ d, req.files_file = some d → selectPayload req = d)
    ∧ (req.files_file = none → selectPayload req = req.raw_body)
    ∧ (∀ d b b', req.files_file = some d →
        print_pdf_endpoint config { req with raw_body := b } env =
          print_pdf_endpoint config { req with raw_body := b' } env) := by
  refine ⟨fun d h => ?_, fun h => ?_, fun d b b' h => ?_⟩
  · simp [selectPayload, h]
  · simp [selectPayload, h]
  · simp [print_pdf_endpoint, check_api_key, selectPrinter, selectPayload, h]

/-- C10 witness: with a `file` field present, changing the raw body does
not change the response. -/
theorem c10_witness :
    print_pdf_endpoint exampleConfig
        ⟨"POST", none, none, some examplePdfBytes, [1, 2, 3]⟩ okRenderEnv =
      print_pdf_endpoint exampleConfig
        ⟨"POST", none, none, some examplePdfBytes, [9]⟩ okRenderEnv :=
  (c10_payload_selection exampleConfig
      ⟨"POST", none, none, some examplePdfBytes, [1, 2, 3]⟩ okRenderEnv).2.2
    examplePdfBytes [1, 2, 3] [9] rfl

end AutomaPrint
